import Mathlib

/-!
Verification of the Minecraft-skin 3D preview core (`mathutil.py`,
`model.py`, `interaction.py`).

The Python code works on IEEE floats; the embedding models every numeric
value as an exact rational (`ℚ`).  The three transcendental library calls
(`math.cos`, `math.sin`, `math.sqrt`, always applied after `math.radians`
for the trig pair) have no exact rational counterpart, so the functions
that use them are parameterized over rational-valued interpretations
`cosd`, `sind` (cosine/sine of an angle given in degrees) and `sqd`
(square root); theorems hold for every interpretation, and where a claim
needs the defining property of the real square root it is taken as a
hypothesis at the point of use.

Python code that can raise an exception is embedded in `Except`:
the only statement in the covered code that can raise on well-typed
input is the division by the viewport dimensions in `_unproject`
(a `ZeroDivisionError` when a viewport dimension is zero); every other
division is guarded by the code itself.
-/

/-- 4×4 matrix, column-major flat layout exactly as in `mathutil.py`:
entry (row, col) lives at index `col*4+row`; field `mI` is list slot `I`. -/
structure Mat4 where
  m0 : ℚ
  m1 : ℚ
  m2 : ℚ
  m3 : ℚ
  m4 : ℚ
  m5 : ℚ
  m6 : ℚ
  m7 : ℚ
  m8 : ℚ
  m9 : ℚ
  m10 : ℚ
  m11 : ℚ
  m12 : ℚ
  m13 : ℚ
  m14 : ℚ
  m15 : ℚ
deriving DecidableEq, Repr

/-- Index access into the flat 16-entry layout (read-only view used to
state per-entry properties). -/
def mat4_entry (m : Mat4) (i : Fin 16) : ℚ :=
  match i.val with
  | 0 => m.m0
  | 1 => m.m1
  | 2 => m.m2
  | 3 => m.m3
  | 4 => m.m4
  | 5 => m.m5
  | 6 => m.m6
  | 7 => m.m7
  | 8 => m.m8
  | 9 => m.m9
  | 10 => m.m10
  | 11 => m.m11
  | 12 => m.m12
  | 13 => m.m13
  | 14 => m.m14
  | _ => m.m15

/-- `identity()` from `mathutil.py`. -/
def identityM : Mat4 :=
  ⟨1, 0, 0, 0,
   0, 1, 0, 0,
   0, 0, 1, 0,
   0, 0, 0, 1⟩

/-- The all-zero matrix (`[0.0] * 16`). -/
def zeroM : Mat4 :=
  ⟨0, 0, 0, 0,
   0, 0, 0, 0,
   0, 0, 0, 0,
   0, 0, 0, 0⟩

/-- `mat4_multiply(a, b)`: `result[col*4+row] = Σ_k a[k*4+row] * b[col*4+k]`,
the fixed-bound loop of the source unrolled. -/
def mat4_multiply (a b : Mat4) : Mat4 where
  m0 := a.m0 * b.m0 + a.m4 * b.m1 + a.m8 * b.m2 + a.m12 * b.m3
  m1 := a.m1 * b.m0 + a.m5 * b.m1 + a.m9 * b.m2 + a.m13 * b.m3
  m2 := a.m2 * b.m0 + a.m6 * b.m1 + a.m10 * b.m2 + a.m14 * b.m3
  m3 := a.m3 * b.m0 + a.m7 * b.m1 + a.m11 * b.m2 + a.m15 * b.m3
  m4 := a.m0 * b.m4 + a.m4 * b.m5 + a.m8 * b.m6 + a.m12 * b.m7
  m5 := a.m1 * b.m4 + a.m5 * b.m5 + a.m9 * b.m6 + a.m13 * b.m7
  m6 := a.m2 * b.m4 + a.m6 * b.m5 + a.m10 * b.m6 + a.m14 * b.m7
  m7 := a.m3 * b.m4 + a.m7 * b.m5 + a.m11 * b.m6 + a.m15 * b.m7
  m8 := a.m0 * b.m8 + a.m4 * b.m9 + a.m8 * b.m10 + a.m12 * b.m11
  m9 := a.m1 * b.m8 + a.m5 * b.m9 + a.m9 * b.m10 + a.m13 * b.m11
  m10 := a.m2 * b.m8 + a.m6 * b.m9 + a.m10 * b.m10 + a.m14 * b.m11
  m11 := a.m3 * b.m8 + a.m7 * b.m9 + a.m11 * b.m10 + a.m15 * b.m11
  m12 := a.m0 * b.m12 + a.m4 * b.m13 + a.m8 * b.m14 + a.m12 * b.m15
  m13 := a.m1 * b.m12 + a.m5 * b.m13 + a.m9 * b.m14 + a.m13 * b.m15
  m14 := a.m2 * b.m12 + a.m6 * b.m13 + a.m10 * b.m14 + a.m14 * b.m15
  m15 := a.m3 * b.m12 + a.m7 * b.m13 + a.m11 * b.m14 + a.m15 * b.m15

/-- The cofactor array `inv` of `mat4_inverse` (unscaled), entry for entry
as written in `mathutil.py` lines 78-112. -/
def mat4_inverseAux (m : Mat4) : Mat4 where
  m0 := m.m5 * m.m10 * m.m15 - m.m5 * m.m11 * m.m14 - m.m9 * m.m6 * m.m15
      + m.m9 * m.m7 * m.m14 + m.m13 * m.m6 * m.m11 - m.m13 * m.m7 * m.m10
  m4 := -m.m4 * m.m10 * m.m15 + m.m4 * m.m11 * m.m14 + m.m8 * m.m6 * m.m15
      - m.m8 * m.m7 * m.m14 - m.m12 * m.m6 * m.m11 + m.m12 * m.m7 * m.m10
  m8 := m.m4 * m.m9 * m.m15 - m.m4 * m.m11 * m.m13 - m.m8 * m.m5 * m.m15
      + m.m8 * m.m7 * m.m13 + m.m12 * m.m5 * m.m11 - m.m12 * m.m7 * m.m9
  m12 := -m.m4 * m.m9 * m.m14 + m.m4 * m.m10 * m.m13 + m.m8 * m.m5 * m.m14
      - m.m8 * m.m6 * m.m13 - m.m12 * m.m5 * m.m10 + m.m12 * m.m6 * m.m9
  m1 := -m.m1 * m.m10 * m.m15 + m.m1 * m.m11 * m.m14 + m.m9 * m.m2 * m.m15
      - m.m9 * m.m3 * m.m14 - m.m13 * m.m2 * m.m11 + m.m13 * m.m3 * m.m10
  m5 := m.m0 * m.m10 * m.m15 - m.m0 * m.m11 * m.m14 - m.m8 * m.m2 * m.m15
      + m.m8 * m.m3 * m.m14 + m.m12 * m.m2 * m.m11 - m.m12 * m.m3 * m.m10
  m9 := -m.m0 * m.m9 * m.m15 + m.m0 * m.m11 * m.m13 + m.m8 * m.m1 * m.m15
      - m.m8 * m.m3 * m.m13 - m.m12 * m.m1 * m.m11 + m.m12 * m.m3 * m.m9
  m13 := m.m0 * m.m9 * m.m14 - m.m0 * m.m10 * m.m13 - m.m8 * m.m1 * m.m14
      + m.m8 * m.m2 * m.m13 + m.m12 * m.m1 * m.m10 - m.m12 * m.m2 * m.m9
  m2 := m.m1 * m.m6 * m.m15 - m.m1 * m.m7 * m.m14 - m.m5 * m.m2 * m.m15
      + m.m5 * m.m3 * m.m14 + m.m13 * m.m2 * m.m7 - m.m13 * m.m3 * m.m6
  m6 := -m.m0 * m.m6 * m.m15 + m.m0 * m.m7 * m.m14 + m.m4 * m.m2 * m.m15
      - m.m4 * m.m3 * m.m14 - m.m12 * m.m2 * m.m7 + m.m12 * m.m3 * m.m6
  m10 := m.m0 * m.m5 * m.m15 - m.m0 * m.m7 * m.m13 - m.m4 * m.m1 * m.m15
      + m.m4 * m.m3 * m.m13 + m.m12 * m.m1 * m.m7 - m.m12 * m.m3 * m.m5
  m14 := -m.m0 * m.m5 * m.m14 + m.m0 * m.m6 * m.m13 + m.m4 * m.m1 * m.m14
      - m.m4 * m.m2 * m.m13 - m.m12 * m.m1 * m.m6 + m.m12 * m.m2 * m.m5
  m3 := -m.m1 * m.m6 * m.m11 + m.m1 * m.m7 * m.m10 + m.m5 * m.m2 * m.m11
      - m.m5 * m.m3 * m.m10 - m.m9 * m.m2 * m.m7 + m.m9 * m.m3 * m.m6
  m7 := m.m0 * m.m6 * m.m11 - m.m0 * m.m7 * m.m10 - m.m4 * m.m2 * m.m11
      + m.m4 * m.m3 * m.m10 + m.m8 * m.m2 * m.m7 - m.m8 * m.m3 * m.m6
  m11 := -m.m0 * m.m5 * m.m11 + m.m0 * m.m7 * m.m9 + m.m4 * m.m1 * m.m11
      - m.m4 * m.m3 * m.m9 - m.m8 * m.m1 * m.m7 + m.m8 * m.m3 * m.m5
  m15 := m.m0 * m.m5 * m.m10 - m.m0 * m.m6 * m.m9 - m.m4 * m.m1 * m.m10
      + m.m4 * m.m2 * m.m9 + m.m8 * m.m1 * m.m6 - m.m8 * m.m2 * m.m5

/-- `det = m[0]*inv[0] + m[1]*inv[4] + m[2]*inv[8] + m[3]*inv[12]`. -/
def mat4_det (m : Mat4) : ℚ :=
  m.m0 * (mat4_inverseAux m).m0 + m.m1 * (mat4_inverseAux m).m4
    + m.m2 * (mat4_inverseAux m).m8 + m.m3 * (mat4_inverseAux m).m12

/-- The singularity threshold `1e-12` of `mat4_inverse` and `_unproject`. -/
def singEps : ℚ := 1 / 1000000000000

/-- Scale every entry of a matrix (the list comprehension
`[x * det for x in inv]`). -/
def mat4_scale (c : ℚ) (m : Mat4) : Mat4 :=
  ⟨c * m.m0, c * m.m1, c * m.m2, c * m.m3,
   c * m.m4, c * m.m5, c * m.m6, c * m.m7,
   c * m.m8, c * m.m9, c * m.m10, c * m.m11,
   c * m.m12, c * m.m13, c * m.m14, c * m.m15⟩

/-- `mat4_inverse(m)`: `None` when `abs(det) < 1e-12`, otherwise the
cofactor array scaled by `1/det`. -/
def mat4_inverse (m : Mat4) : Option Mat4 :=
  if |mat4_det m| < singEps then none
  else some (mat4_scale (1 / mat4_det m) (mat4_inverseAux m))

/-- Homogeneous 4-vector (a Python 4-tuple). -/
structure V4 where
  x : ℚ
  y : ℚ
  z : ℚ
  w : ℚ
deriving DecidableEq, Repr

/-- `mat4_mul_vec4(m, v)` from `mathutil.py`. -/
def mat4_mul_vec4 (m : Mat4) (v : V4) : V4 where
  x := m.m0 * v.x + m.m4 * v.y + m.m8 * v.z + m.m12 * v.w
  y := m.m1 * v.x + m.m5 * v.y + m.m9 * v.z + m.m13 * v.w
  z := m.m2 * v.x + m.m6 * v.y + m.m10 * v.z + m.m14 * v.w
  w := m.m3 * v.x + m.m7 * v.y + m.m11 * v.z + m.m15 * v.w

/-! ## `model.py` — boxes, UV unwrap, poses -/

/-- A 3-component point/vector (a Python 3-tuple). -/
structure V3 where
  x : ℚ
  y : ℚ
  z : ℚ
deriving DecidableEq, Repr

/-- A texture coordinate pair. -/
abbrev V2 := ℚ × ℚ

/-- A UV rectangle `(u_min, v_min, u_max, v_max)` in the 0..1 range. -/
abbrev Rect := ℚ × ℚ × ℚ × ℚ

/-- `TEX_W`/`TEX_H` from `model.py` (the only atlas size the program ever
passes to `_box_uvs`, via the defaulted `tex_w`/`tex_h` parameters). -/
def TEXW : ℚ := 64
def TEXH : ℚ := 64

/-- The inner `norm` helper of `_box_uvs`, at the default atlas size. -/
def normRect (px_u px_v px_w px_h : ℚ) : Rect :=
  (px_u / TEXW, px_v / TEXH, (px_u + px_w) / TEXW, (px_v + px_h) / TEXH)

/-- The per-face UV rectangle dictionary returned by `_box_uvs`. -/
structure FaceUVs where
  right : Rect
  front : Rect
  left : Rect
  back : Rect
  top : Rect
  bottom : Rect
deriving DecidableEq, Repr

/-- `_box_uvs(u0, v0, w, h, d)` from `model.py`. -/
def box_uvs (u0 v0 w h d : ℚ) : FaceUVs where
  right := normRect u0 (v0 + d) d h
  front := normRect (u0 + d) (v0 + d) w h
  left := normRect (u0 + d + w) (v0 + d) d h
  back := normRect (u0 + d + w + d) (v0 + d) w h
  top := normRect (u0 + d) v0 w d
  bottom := normRect (u0 + d + w) v0 w d

/-- A constructed `BoxPart` (the attribute state after `__init__`). -/
structure BoxPart where
  name : String
  origin : V3
  size : V3
  uv_origin : ℚ × ℚ
  inflate : ℚ
  uvs : FaceUVs
  pivot : V3
  rotation : V3
deriving DecidableEq, Repr

/-- `BoxPart.__init__`: stores `origin - inflate` and `size + 2*inflate`,
derives the UV rectangles from the *uninflated* size, and defaults the
pivot to the uninflated box center and the rotation to zero
(`pivot or (...)` / `rotation or (0, 0, 0)` on the `None` default). -/
def mkBoxPart (name : String) (origin size : V3) (uv_origin : ℚ × ℚ)
    (inflate : ℚ := 0) (pivot : Option V3 := none)
    (rotation : Option V3 := none) : BoxPart where
  name := name
  origin := ⟨origin.x - inflate, origin.y - inflate, origin.z - inflate⟩
  size := ⟨size.x + 2 * inflate, size.y + 2 * inflate, size.z + 2 * inflate⟩
  uv_origin := uv_origin
  inflate := inflate
  uvs := box_uvs uv_origin.1 uv_origin.2 size.x size.y size.z
  pivot := pivot.getD ⟨origin.x + size.x / 2, origin.y + size.y / 2,
    origin.z + size.z / 2⟩
  rotation := rotation.getD ⟨0, 0, 0⟩

/-- One face quad `(face_name, vertices, uvs)`; the Python 4-element
vertex and UV lists are stored as four fields each. -/
structure Quad where
  face : String
  v0 : V3
  v1 : V3
  v2 : V3
  v3 : V3
  uv0 : V2
  uv1 : V2
  uv2 : V2
  uv3 : V2
deriving DecidableEq, Repr

/-- `BoxPart.get_face_quads`: the six face quads, vertices and UVs listed
exactly as in `model.py` lines 94-164. -/
def get_face_quads (p : BoxPart) : List Quad :=
  let x0 := p.origin.x
  let y0 := p.origin.y
  let z0 := p.origin.z
  let x1 := x0 + p.size.x
  let y1 := y0 + p.size.y
  let z1 := z0 + p.size.z
  let (fU0, fV0, fU1, fV1) := p.uvs.front
  let (bU0, bV0, bU1, bV1) := p.uvs.back
  let (rU0, rV0, rU1, rV1) := p.uvs.right
  let (lU0, lV0, lU1, lV1) := p.uvs.left
  let (tU0, tV0, tU1, tV1) := p.uvs.top
  let (dU0, dV0, dU1, dV1) := p.uvs.bottom
  [⟨"front", ⟨x0, y0, z0⟩, ⟨x1, y0, z0⟩, ⟨x1, y1, z0⟩, ⟨x0, y1, z0⟩,
    (fU1, fV1), (fU0, fV1), (fU0, fV0), (fU1, fV0)⟩,
   ⟨"back", ⟨x1, y0, z1⟩, ⟨x0, y0, z1⟩, ⟨x0, y1, z1⟩, ⟨x1, y1, z1⟩,
    (bU1, bV1), (bU0, bV1), (bU0, bV0), (bU1, bV0)⟩,
   ⟨"right", ⟨x0, y0, z1⟩, ⟨x0, y0, z0⟩, ⟨x0, y1, z0⟩, ⟨x0, y1, z1⟩,
    (rU1, rV1), (rU0, rV1), (rU0, rV0), (rU1, rV0)⟩,
   ⟨"left", ⟨x1, y0, z0⟩, ⟨x1, y0, z1⟩, ⟨x1, y1, z1⟩, ⟨x1, y1, z0⟩,
    (lU1, lV1), (lU0, lV1), (lU0, lV0), (lU1, lV0)⟩,
   ⟨"top", ⟨x0, y1, z0⟩, ⟨x1, y1, z0⟩, ⟨x1, y1, z1⟩, ⟨x0, y1, z1⟩,
    (tU0, tV0), (tU1, tV0), (tU1, tV1), (tU0, tV1)⟩,
   ⟨"bottom", ⟨x0, y0, z1⟩, ⟨x1, y0, z1⟩, ⟨x1, y0, z0⟩, ⟨x0, y0, z0⟩,
    (dU0, dV0), (dU1, dV0), (dU1, dV1), (dU0, dV1)⟩]

/-- Python's substring test `needle in hay`. -/
def strContains (hay needle : String) : Bool :=
  decide (needle.toList <:+: hay.toList)

/-- The first loop of `_apply_pose`: `part.rotation = (0, 0, 0)`. -/
def resetRotation (p : BoxPart) : BoxPart := { p with rotation := ⟨0, 0, 0⟩ }

/-- The `pose_index == 1` (walking) branch of `_apply_pose`, per part:
the `elif` cascade applies the first matching rule only. -/
def walkUpdate (p : BoxPart) : BoxPart :=
  if strContains p.name "rightArm" || strContains p.name "rightSleeve" then
    { p with rotation := ⟨30, 0, 0⟩ }
  else if strContains p.name "leftArm" || strContains p.name "leftSleeve" then
    { p with rotation := ⟨-30, 0, 0⟩ }
  else if strContains p.name "rightLeg" || strContains p.name "rightPants" then
    { p with rotation := ⟨-30, 0, 0⟩ }
  else if strContains p.name "leftLeg" || strContains p.name "leftPants" then
    { p with rotation := ⟨30, 0, 0⟩ }
  else p

/-- The `pose_index == 2` (T-pose) branch of `_apply_pose`, per part. -/
def armsOutUpdate (p : BoxPart) : BoxPart :=
  if strContains p.name "rightArm" || strContains p.name "rightSleeve" then
    { p with rotation := ⟨0, 0, 90⟩ }
  else if strContains p.name "leftArm" || strContains p.name "leftSleeve" then
    { p with rotation := ⟨0, 0, -90⟩ }
  else p

/-- `PlayerModel._apply_pose` acting on a list of parts: reset every
rotation, then apply the per-part pose rule.  The Python loops mutate
each part of `get_all_parts()` independently, which is the same as
mapping the per-part update. -/
def applyPoseList (pose_index : ℤ) (parts : List BoxPart) : List BoxPart :=
  let r := parts.map resetRotation
  if pose_index = 1 then r.map walkUpdate
  else if pose_index = 2 then r.map armsOutUpdate
  else r

/-- `PlayerModel`: the two part layers. -/
structure PlayerModel where
  base_parts : List BoxPart
  overlay_parts : List BoxPart
deriving DecidableEq, Repr

/-- `PlayerModel.get_all_parts`. -/
def get_all_parts (m : PlayerModel) : List BoxPart :=
  m.base_parts ++ m.overlay_parts

/-- `PlayerModel.set_pose` / `_apply_pose`: the loops run over
`get_all_parts() = base_parts + overlay_parts` and mutate each part in
place, so each layer is the per-part update mapped over it. -/
def set_pose (pose_index : ℤ) (m : PlayerModel) : PlayerModel where
  base_parts := applyPoseList pose_index m.base_parts
  overlay_parts := applyPoseList pose_index m.overlay_parts

/-- `_rotate_point(px, py, pz, pivot, rotation_deg)`; `cosd a` / `sind a`
stand for `math.cos(math.radians(a))` / `math.sin(math.radians(a))`. -/
def rotate_point (cosd sind : ℚ → ℚ) (px py pz : ℚ) (pivot rot : V3) : V3 :=
  let x := px - pivot.x
  let y := py - pivot.y
  let z := pz - pivot.z
  let y1 := cosd rot.x * y - sind rot.x * z
  let z1 := sind rot.x * y + cosd rot.x * z
  let x2 := cosd rot.y * x + sind rot.y * z1
  let z2 := -(sind rot.y) * x + cosd rot.y * z1
  let x3 := cosd rot.z * x2 - sind rot.z * y1
  let y3 := sind rot.z * x2 + cosd rot.z * y1
  ⟨x3 + pivot.x, y3 + pivot.y, z2 + pivot.z⟩

/-- `get_transformed_quads(part)`: identity when the rotation is all-zero,
otherwise rotate each vertex about the pivot; UVs and the face name are
passed through untouched. -/
def get_transformed_quads (cosd sind : ℚ → ℚ) (p : BoxPart) : List Quad :=
  let quads := get_face_quads p
  if p.rotation.x = 0 ∧ p.rotation.y = 0 ∧ p.rotation.z = 0 then quads
  else
    quads.map fun q =>
      { q with
        v0 := rotate_point cosd sind q.v0.x q.v0.y q.v0.z p.pivot p.rotation
        v1 := rotate_point cosd sind q.v1.x q.v1.y q.v1.z p.pivot p.rotation
        v2 := rotate_point cosd sind q.v2.x q.v2.y q.v2.z p.pivot p.rotation
        v3 := rotate_point cosd sind q.v3.x q.v3.y q.v3.z p.pivot p.rotation }

/-- `SteveModel.__init__` (classic, 4-wide arms). -/
def steveModel : PlayerModel where
  base_parts :=
    [mkBoxPart "head" ⟨-4, 24, -4⟩ ⟨8, 8, 8⟩ (0, 0) 0 (some ⟨0, 24, 0⟩),
     mkBoxPart "body" ⟨-4, 12, -2⟩ ⟨8, 12, 4⟩ (16, 16) 0 (some ⟨0, 24, 0⟩),
     mkBoxPart "rightArm" ⟨-8, 12, -2⟩ ⟨4, 12, 4⟩ (40, 16) 0 (some ⟨-5, 22, 0⟩),
     mkBoxPart "leftArm" ⟨4, 12, -2⟩ ⟨4, 12, 4⟩ (32, 48) 0 (some ⟨5, 22, 0⟩),
     mkBoxPart "rightLeg" ⟨-3.9, 0, -2⟩ ⟨4, 12, 4⟩ (0, 16) 0 (some ⟨-1.9, 12, 0⟩),
     mkBoxPart "leftLeg" ⟨-0.1, 0, -2⟩ ⟨4, 12, 4⟩ (16, 48) 0 (some ⟨1.9, 12, 0⟩)]
  overlay_parts :=
    [mkBoxPart "hat" ⟨-4, 24, -4⟩ ⟨8, 8, 8⟩ (32, 0) 0.5 (some ⟨0, 24, 0⟩),
     mkBoxPart "jacket" ⟨-4, 12, -2⟩ ⟨8, 12, 4⟩ (16, 32) 0.5 (some ⟨0, 24, 0⟩),
     mkBoxPart "rightSleeve" ⟨-8, 12, -2⟩ ⟨4, 12, 4⟩ (40, 32) 0.5 (some ⟨-5, 22, 0⟩),
     mkBoxPart "leftSleeve" ⟨4, 12, -2⟩ ⟨4, 12, 4⟩ (48, 48) 0.5 (some ⟨5, 22, 0⟩),
     mkBoxPart "rightPants" ⟨-3.9, 0, -2⟩ ⟨4, 12, 4⟩ (0, 32) 0.5 (some ⟨-1.9, 12, 0⟩),
     mkBoxPart "leftPants" ⟨-0.1, 0, -2⟩ ⟨4, 12, 4⟩ (0, 48) 0.5 (some ⟨1.9, 12, 0⟩)]

/-- `AlexModel.__init__` (slim, 3-wide arms). -/
def alexModel : PlayerModel where
  base_parts :=
    [mkBoxPart "head" ⟨-4, 24, -4⟩ ⟨8, 8, 8⟩ (0, 0) 0 (some ⟨0, 24, 0⟩),
     mkBoxPart "body" ⟨-4, 12, -2⟩ ⟨8, 12, 4⟩ (16, 16) 0 (some ⟨0, 24, 0⟩),
     mkBoxPart "rightArm" ⟨-7, 12, -2⟩ ⟨3, 12, 4⟩ (40, 16) 0 (some ⟨-5, 21.5, 0⟩),
     mkBoxPart "leftArm" ⟨4, 12, -2⟩ ⟨3, 12, 4⟩ (32, 48) 0 (some ⟨5, 21.5, 0⟩),
     mkBoxPart "rightLeg" ⟨-3.9, 0, -2⟩ ⟨4, 12, 4⟩ (0, 16) 0 (some ⟨-1.9, 12, 0⟩),
     mkBoxPart "leftLeg" ⟨-0.1, 0, -2⟩ ⟨4, 12, 4⟩ (16, 48) 0 (some ⟨1.9, 12, 0⟩)]
  overlay_parts :=
    [mkBoxPart "hat" ⟨-4, 24, -4⟩ ⟨8, 8, 8⟩ (32, 0) 0.5 (some ⟨0, 24, 0⟩),
     mkBoxPart "jacket" ⟨-4, 12, -2⟩ ⟨8, 12, 4⟩ (16, 32) 0.5 (some ⟨0, 24, 0⟩),
     mkBoxPart "rightSleeve" ⟨-7, 12, -2⟩ ⟨3, 12, 4⟩ (40, 32) 0.5 (some ⟨-5, 21.5, 0⟩),
     mkBoxPart "leftSleeve" ⟨4, 12, -2⟩ ⟨3, 12, 4⟩ (48, 48) 0.5 (some ⟨5, 21.5, 0⟩),
     mkBoxPart "rightPants" ⟨-3.9, 0, -2⟩ ⟨4, 12, 4⟩ (0, 32) 0.5 (some ⟨-1.9, 12, 0⟩),
     mkBoxPart "leftPants" ⟨-0.1, 0, -2⟩ ⟨4, 12, 4⟩ (0, 48) 0.5 (some ⟨1.9, 12, 0⟩)]

/-! ## `interaction.py` — ray casting and picking -/

/-- Component-wise difference (the inline tuple arithmetic of
`interaction.py`). -/
def sub3 (a b : V3) : V3 := ⟨a.x - b.x, a.y - b.y, a.z - b.z⟩

/-- Dot product, as written inline in `interaction.py`. -/
def dot3 (a b : V3) : ℚ := a.x * b.x + a.y * b.y + a.z * b.z

/-- Cross product, component formulas as written inline in
`interaction.py` (and in `renderer.py`'s face-normal computation). -/
def cross3 (a b : V3) : V3 :=
  ⟨a.y * b.z - a.z * b.y, a.z * b.x - a.x * b.z, a.x * b.y - a.y * b.x⟩

/-- `EPSILON = 1e-7` of `_ray_triangle_intersect`. -/
def triEps : ℚ := 1 / 10000000

/-- `_ray_triangle_intersect` (Möller–Trumbore), `interaction.py`
lines 79-121. -/
def ray_triangle_intersect (origin direction v0 v1 v2 : V3)
    (uv0 uv1 uv2 : V2) : Option (ℚ × ℚ × ℚ) :=
  let e1 := sub3 v1 v0
  let e2 := sub3 v2 v0
  let h := cross3 direction e2
  let a := dot3 e1 h
  if |a| < triEps then none
  else
    let f := 1 / a
    let s := sub3 origin v0
    let u := f * dot3 s h
    if u < 0 ∨ u > 1 then none
    else
      let q := cross3 s e1
      let v := f * dot3 direction q
      if v < 0 ∨ u + v > 1 then none
      else
        let t := f * dot3 e2 q
        if t < triEps then none
        else
          let w0 := 1 - u - v
          some (t, w0 * uv0.1 + u * uv1.1 + v * uv2.1,
                w0 * uv0.2 + u * uv1.2 + v * uv2.2)

/-- `_ray_quad_intersect`: triangles `(0,1,2)` then `(0,2,3)`. -/
def ray_quad_intersect (origin direction : V3) (q : Quad) :
    Option (ℚ × ℚ × ℚ) :=
  match ray_triangle_intersect origin direction q.v0 q.v1 q.v2
      q.uv0 q.uv1 q.uv2 with
  | some r => some r
  | none =>
      ray_triangle_intersect origin direction q.v0 q.v2 q.v3
        q.uv0 q.uv2 q.uv3

/-- `ndc_x = (2.0 * mx / viewport_w) - 1.0`. -/
def ndcX (mx vw : ℚ) : ℚ := 2 * mx / vw - 1

/-- `ndc_y = 1.0 - (2.0 * my / viewport_h)`. -/
def ndcY (my vh : ℚ) : ℚ := 1 - 2 * my / vh

/-- The near clip point transformed to eye space:
`near_eye = inv_proj @ (ndc_x, ndc_y, -1, 1)`. -/
def nearEye (ip : Mat4) (nx ny : ℚ) : V4 := mat4_mul_vec4 ip ⟨nx, ny, -1, 1⟩

/-- The far clip point transformed to eye space. -/
def farEye (ip : Mat4) (nx ny : ℚ) : V4 := mat4_mul_vec4 ip ⟨nx, ny, 1, 1⟩

/-- The perspective divide `tuple(c / v[3] for c in v)`. -/
def divideW (v : V4) : V4 := ⟨v.x / v.w, v.y / v.w, v.z / v.w, v.w / v.w⟩

/-- The near point in world space (eye point divided by `w`, then through
the inverse view matrix). -/
def nearWorld (ip iv : Mat4) (nx ny : ℚ) : V4 :=
  mat4_mul_vec4 iv (divideW (nearEye ip nx ny))

/-- The far point in world space. -/
def farWorld (ip iv : Mat4) (nx ny : ℚ) : V4 :=
  mat4_mul_vec4 iv (divideW (farEye ip nx ny))

/-- The unnormalized ray direction `far_world - near_world` (xyz). -/
def unprojDelta (ip iv : Mat4) (nx ny : ℚ) : V3 :=
  ⟨(farWorld ip iv nx ny).x - (nearWorld ip iv nx ny).x,
   (farWorld ip iv nx ny).y - (nearWorld ip iv nx ny).y,
   (farWorld ip iv nx ny).z - (nearWorld ip iv nx ny).z⟩

/-- The squared length of the unnormalized direction; the code feeds this
to `math.sqrt` to get `dl`. -/
def unprojDirSq (ip iv : Mat4) (nx ny : ℚ) : ℚ :=
  (unprojDelta ip iv nx ny).x ^ 2 + (unprojDelta ip iv nx ny).y ^ 2 +
    (unprojDelta ip iv nx ny).z ^ 2

/-- `_unproject` after the two matrix inversions succeeded, with
`ip`/`iv` the inverted projection/view and `nx`/`ny` the NDC coords.
`sqd` interprets `math.sqrt`. -/
def unprojectAfterInv (sqd : ℚ → ℚ) (ip iv : Mat4) (nx ny : ℚ) :
    Option (V3 × V3) :=
  if |(nearEye ip nx ny).w| < singEps ∨ |(farEye ip nx ny).w| < singEps then
    none
  else
    let nw := nearWorld ip iv nx ny
    let d := unprojDelta ip iv nx ny
    let dl := sqd (unprojDirSq ip iv nx ny)
    if dl < singEps then none
    else some (⟨nw.x, nw.y, nw.z⟩, ⟨d.x / dl, d.y / dl, d.z / dl⟩)

/-- `_unproject(mx, my, viewport_w, viewport_h, proj, view)`.  The Python
body divides by `viewport_w`/`viewport_h` with no guard, so a zero
viewport dimension raises `ZeroDivisionError`: that is the `Except.error`
case.  Everything else follows `interaction.py` lines 22-55. -/
def unproject (sqd : ℚ → ℚ) (mx my vw vh : ℚ) (proj view : Mat4) :
    Except Unit (Option (V3 × V3)) :=
  if vw = 0 ∨ vh = 0 then .error ()
  else
    match mat4_inverse proj, mat4_inverse view with
    | some ip, some iv =>
        .ok (unprojectAfterInv sqd ip iv (ndcX mx vw) (ndcY my vh))
    | _, _ => .ok none

/-- The best-hit accumulator of `RayCaster.pick`: `best_t` starts at
`float('inf')` (here: `none`), and a hit replaces the stored best exactly
when `t < best_t`. -/
def updateBest (best hit : Option (ℚ × ℚ × ℚ)) : Option (ℚ × ℚ × ℚ) :=
  match hit, best with
  | none, b => b
  | some h, none => some h
  | some h, some b => if h.1 < b.1 then some h else some b

/-- The quad loop of `RayCaster.pick` (lines 139-151): fold over every
quad of every part, keeping the `(t, tex_u, tex_v)` with smallest `t`,
then project out the winning `(tex_u, tex_v)`. -/
def pickBestUV (cosd sind : ℚ → ℚ) (origin direction : V3)
    (parts : List BoxPart) : Option (ℚ × ℚ) :=
  (parts.foldl (fun acc p =>
      (get_transformed_quads cosd sind p).foldl (fun acc2 q =>
        updateBest acc2 (ray_quad_intersect origin direction q)) acc)
    none).map fun b => (b.2.1, b.2.2)

/-- Python's `int()` applied to an exact rational: truncation toward
zero. -/
def truncQ (q : ℚ) : ℤ := q.num.tdiv q.den

/-- `max(0, min(TEX_W - 1, px))` with `TEX_W = TEX_H = 64`. -/
def clampTexel (n : ℤ) : ℤ := max 0 (min (64 - 1) n)

/-- `RayCaster.pick`: unproject, intersect every quad of the visible
parts, convert the winning UV to clamped integer texel coordinates.
Propagates the `ZeroDivisionError` of `_unproject` as `Except.error`. -/
def pick (cosd sind sqd : ℚ → ℚ) (mx my vw vh : ℚ) (proj view : Mat4)
    (model : PlayerModel) (overlay_visible : Bool) :
    Except Unit (Option (ℤ × ℤ)) :=
  match unproject sqd mx my vw vh proj view with
  | .error e => .error e
  | .ok none => .ok none
  | .ok (some (origin, direction)) =>
      let parts := if overlay_visible then get_all_parts model
        else model.base_parts
      match pickBestUV cosd sind origin direction parts with
      | none => .ok none
      | some (tu, tv) =>
          .ok (some (clampTexel (truncQ (tu * TEXW)),
            clampTexel (truncQ (tv * TEXH))))

/-! ## Claim-facing definitions -/

/-- The six face UV rectangles as the specification words them (§4.2):
pixel rectangles (x, y, width, height) at
`right=(u0, v0+d, d, h)`, `front=(u0+d, v0+d, w, h)`,
`left=(u0+d+w, v0+d, d, h)`, `back=(u0+d+w+d, v0+d, w, h)`,
`top=(u0+d, v0, w, d)`, `bottom=(u0+d+w, v0, w, d)`, each converted to
normalized `(uMin, vMin, uMax, vMax)` by dividing x-extents by the atlas
width (64) and y-extents by the atlas height (64).  This definition
follows the spec text; the theorem for C3 compares it with `box_uvs`,
which is translated from the source. -/
def specFaceUVs (u0 v0 w h d : ℚ) : FaceUVs where
  right := (u0 / 64, (v0 + d) / 64, (u0 + d) / 64, (v0 + d + h) / 64)
  front := ((u0 + d) / 64, (v0 + d) / 64, (u0 + d + w) / 64, (v0 + d + h) / 64)
  left := ((u0 + d + w) / 64, (v0 + d) / 64, (u0 + d + w + d) / 64,
    (v0 + d + h) / 64)
  back := ((u0 + d + w + d) / 64, (v0 + d) / 64, (u0 + d + w + d + w) / 64,
    (v0 + d + h) / 64)
  top := ((u0 + d) / 64, v0 / 64, (u0 + d + w) / 64, (v0 + d) / 64)
  bottom := ((u0 + d + w) / 64, v0 / 64, (u0 + d + w + w) / 64, (v0 + d) / 64)

/-- The outward axis of each face, from the source comments of
`get_face_quads`: front faces -Z, back +Z, right -X, left +X, top +Y,
bottom -Y. -/
def outwardDir (face : String) : V3 :=
  if face = "front" then ⟨0, 0, -1⟩
  else if face = "back" then ⟨0, 0, 1⟩
  else if face = "right" then ⟨-1, 0, 0⟩
  else if face = "left" then ⟨1, 0, 0⟩
  else if face = "top" then ⟨0, 1, 0⟩
  else ⟨0, -1, 0⟩

/-- The first-triangle normal `(v1-v0) × (v2-v0)` of a quad — exactly the
face normal the host renderer derives from the emitted vertex order. -/
def quadNormal (q : Quad) : V3 := cross3 (sub3 q.v1 q.v0) (sub3 q.v2 q.v0)

/-- The second-triangle normal `(v2-v0) × (v3-v0)` of a quad. -/
def quadNormal2 (q : Quad) : V3 := cross3 (sub3 q.v2 q.v0) (sub3 q.v3 q.v0)

/-- A concrete unit box used to evaluate the winding of the emitted
faces. -/
def testCube : BoxPart := mkBoxPart "cube" ⟨0, 0, 0⟩ ⟨1, 1, 1⟩ (0, 0)

/-- A one-part model whose front face spans x,y ∈ [-4,4] at z = 0; the
ray cast from the viewport center of the pick-witness scenario hits it
head on. -/
def testModel : PlayerModel :=
  ⟨[mkBoxPart "test" ⟨-4, -4, 0⟩ ⟨8, 8, 8⟩ (0, 0)], []⟩

/-- An arm-or-sleeve part (the parts the two model variants are allowed
to differ on). -/
def isArmPart (p : BoxPart) : Bool :=
  strContains p.name "Arm" || strContains p.name "Sleeve"

/-- The walking-pose rotation table of claim C4, rules tried in the
listed order (first match wins) exactly as the `elif` cascade of
`_apply_pose` does: rightArm/rightSleeve → (30,0,0),
leftArm/leftSleeve → (-30,0,0), rightLeg/rightPants → (-30,0,0),
leftLeg/leftPants → (30,0,0); any other part keeps zero rotation. -/
def walkRotationOk (p : BoxPart) : Bool :=
  if strContains p.name "rightArm" || strContains p.name "rightSleeve" then
    decide (p.rotation = ⟨30, 0, 0⟩)
  else if strContains p.name "leftArm" || strContains p.name "leftSleeve" then
    decide (p.rotation = ⟨-30, 0, 0⟩)
  else if strContains p.name "rightLeg" || strContains p.name "rightPants" then
    decide (p.rotation = ⟨-30, 0, 0⟩)
  else if strContains p.name "leftLeg" || strContains p.name "leftPants" then
    decide (p.rotation = ⟨30, 0, 0⟩)
  else decide (p.rotation = ⟨0, 0, 0⟩)

/-- The `1e-9` per-entry tolerance named by claim C6. -/
def approxEps : ℚ := 1 / 1000000000

/-! ## Helper lemmas -/

theorem mat4_multiply_inverseAux (m : Mat4) :
    mat4_multiply m (mat4_inverseAux m) = mat4_scale (mat4_det m) identityM := by
  simp only [mat4_multiply, mat4_inverseAux, mat4_scale, mat4_det, identityM,
    Mat4.mk.injEq]
  refine ⟨?_, ?_, ?_, ?_, ?_, ?_, ?_, ?_, ?_, ?_, ?_, ?_, ?_, ?_, ?_, ?_⟩ <;> ring

theorem mat4_multiply_scale_right (a : Mat4) (c : ℚ) (b : Mat4) :
    mat4_multiply a (mat4_scale c b) = mat4_scale c (mat4_multiply a b) := by
  simp only [mat4_multiply, mat4_scale, Mat4.mk.injEq]
  refine ⟨?_, ?_, ?_, ?_, ?_, ?_, ?_, ?_, ?_, ?_, ?_, ?_, ?_, ?_, ?_, ?_⟩ <;> ring

theorem mat4_scale_scale (c e : ℚ) (m : Mat4) :
    mat4_scale c (mat4_scale e m) = mat4_scale (c * e) m := by
  simp only [mat4_scale, Mat4.mk.injEq]
  refine ⟨?_, ?_, ?_, ?_, ?_, ?_, ?_, ?_, ?_, ?_, ?_, ?_, ?_, ?_, ?_, ?_⟩ <;> ring

theorem mat4_scale_one (m : Mat4) : mat4_scale 1 m = m := by
  simp [mat4_scale]

theorem mat4_inverse_identity : mat4_inverse identityM = some identityM := by
  norm_num [mat4_inverse, mat4_det, mat4_inverseAux, identityM, singEps,
    mat4_scale]

theorem clampTexel_trunc_floor (q : ℚ) : clampTexel (truncQ q) = clampTexel ⌊q⌋ := by
  rcases le_or_lt 0 q with h | h
  · have hnum : 0 ≤ q.num := Rat.num_nonneg.mpr h
    have hden : (0 : ℤ) ≤ (q.den : ℤ) := by positivity
    unfold truncQ
    rw [Int.tdiv_eq_ediv hnum hden, Rat.floor_def]
  · have hnum : q.num < 0 := Rat.num_neg.mpr h
    have h2 : (0 : ℤ) ≤ -q.num := by linarith
    have h3 : 0 ≤ (-q.num).tdiv (q.den : ℤ) := Int.tdiv_nonneg h2 (by positivity)
    have h4 : truncQ q = -((-q.num).tdiv (q.den : ℤ)) := by
      simp [truncQ, Int.neg_tdiv]
    have h5 : truncQ q ≤ 0 := by rw [h4]; exact neg_nonpos.mpr h3
    have h6 : ⌊q⌋ ≤ 0 := Int.floor_nonpos h.le
    unfold clampTexel
    omega

theorem clampTexel_range (n : ℤ) : 0 ≤ clampTexel n ∧ clampTexel n ≤ 63 := by
  unfold clampTexel; omega

/-! ## Claim theorems -/

/-- C3: for every `uvOrigin` `(u0, v0)` and box dims `(w, h, d)`, the six
per-face UV rectangles computed by the source's `_box_uvs` are exactly
the pixel rectangles `right=(u0, v0+d, d, h)`, `front=(u0+d, v0+d, w, h)`,
`left=(u0+d+w, v0+d, d, h)`, `back=(u0+d+w+d, v0+d, w, h)`,
`top=(u0+d, v0, w, d)`, `bottom=(u0+d+w, v0, w, d)` normalized to
`(uMin, vMin, uMax, vMax)` by dividing x-extents by the atlas width and
y-extents by the atlas height. -/
theorem C3_box_uvs_matches_spec (u0 v0 w h d : ℚ) :
    box_uvs u0 v0 w h d = specFaceUVs u0 v0 w h d := by
  simp only [box_uvs, specFaceUVs, normRect, TEXW, TEXH, FaceUVs.mk.injEq,
    Prod.mk.injEq]

/-- C10: the stored per-face UV rectangles of a `BoxPart` are computed
from the uninflated size passed to the constructor, so two parts with the
same `uvOrigin` and size but different `inflate` values have identical UV
rectangles, even though `inflate` shifts the stored origin by `-inflate`
and grows each size component by `2*inflate`. -/
theorem C10_uvs_ignore_inflate (nm : String) (origin size : V3)
    (uv : ℚ × ℚ) (i1 i2 : ℚ) (pv rot : Option V3) :
    (mkBoxPart nm origin size uv i1 pv rot).uvs =
      (mkBoxPart nm origin size uv i2 pv rot).uvs ∧
    (mkBoxPart nm origin size uv i1 pv rot).uvs =
      box_uvs uv.1 uv.2 size.x size.y size.z ∧
    (mkBoxPart nm origin size uv i1 pv rot).origin =
      ⟨origin.x - i1, origin.y - i1, origin.z - i1⟩ ∧
    (mkBoxPart nm origin size uv i1 pv rot).size =
      ⟨size.x + 2 * i1, size.y + 2 * i1, size.z + 2 * i1⟩ :=
  ⟨rfl, rfl, rfl, rfl⟩

/-- C6: `inverse(identity()) == identity()`; whenever `mat4_inverse`
returns a result, `multiply(M, inverse(M))` matches the identity within
`1e-9` per entry (in this exact-arithmetic model the product is the
identity exactly); and `mat4_inverse` of the all-zero matrix — and of any
matrix with `|det| < 1e-12` — returns `none` rather than raising. -/
theorem C6_inverse_properties :
    mat4_inverse identityM = some identityM ∧
    (∀ M Minv : Mat4, mat4_inverse M = some Minv → ∀ i : Fin 16,
      |mat4_entry (mat4_multiply M Minv) i - mat4_entry identityM i| ≤
        approxEps) ∧
    mat4_inverse zeroM = none ∧
    (∀ M : Mat4, |mat4_det M| < singEps → mat4_inverse M = none) := by
  refine ⟨mat4_inverse_identity, ?_, ?_, ?_⟩
  · intro M Minv h i
    have hge : ¬ |mat4_det M| < singEps := by
      intro hlt
      simp [mat4_inverse, hlt] at h
    have hne : mat4_det M ≠ 0 := by
      intro h0
      apply hge
      rw [h0]
      norm_num [singEps]
    have hM : Minv = mat4_scale (mat4_det M)⁻¹ (mat4_inverseAux M) := by
      simp [mat4_inverse, hge] at h
      exact h.symm
    have hid : mat4_multiply M Minv = identityM := by
      rw [hM, mat4_multiply_scale_right, mat4_multiply_inverseAux,
        mat4_scale_scale, inv_mul_cancel₀ hne, mat4_scale_one]
    rw [hid]
    simp [approxEps]
  · norm_num [mat4_inverse, mat4_det, mat4_inverseAux, zeroM, singEps]
  · intro M h
    simp [mat4_inverse, h]

/-- Witness for C6: the two hypothesis-bearing conjuncts applied at
concrete inputs — entry 0 of `identity * inverse(identity)` is within
`1e-9` of entry 0 of the identity, and the inverse of a matrix of
determinant 0 is `none`. -/
theorem C6_inverse_properties_witness :
    |mat4_entry (mat4_multiply identityM identityM) 0 -
      mat4_entry identityM 0| ≤ approxEps ∧
    mat4_inverse zeroM = none :=
  ⟨C6_inverse_properties.2.1 identityM identityM mat4_inverse_identity 0,
   C6_inverse_properties.2.2.2 zeroM (by
     norm_num [mat4_det, mat4_inverseAux, zeroM, singEps])⟩

/-- C2 (code bug): evaluation of `get_face_quads` on a unit box at the
origin.  It does emit exactly six quads named front, back, right, left,
top, bottom — but on every face the dot product of the emitted winding's
triangle normals (`(v1-v0)×(v2-v0)` and `(v2-v0)×(v3-v0)`) with the
face's outward axis is `-1 < 0`: the vertices wind *clockwise* when
viewed from outside (the normals point into the box), contradicting both
the claim and the function's own docstring, which promise
counter-clockwise winding. -/
theorem C2_winding_eval :
    (get_face_quads testCube).map
      (fun q => (q.face, dot3 (quadNormal q) (outwardDir q.face),
        dot3 (quadNormal2 q) (outwardDir q.face))) =
      [("front", -1, -1), ("back", -1, -1), ("right", -1, -1),
       ("left", -1, -1), ("top", -1, -1), ("bottom", -1, -1)] := by
  norm_num [get_face_quads, testCube, mkBoxPart, box_uvs, normRect, TEXW,
    TEXH, quadNormal, quadNormal2, outwardDir, cross3, sub3, dot3]
  simp +decide

/-- Counterexample to C7 as stated: the classic and slim variants do
*not* have identical part origins — the classic right arm's origin is
`(-8, 12, -2)` while the slim right arm's origin is `(-7, 12, -2)`. -/
theorem C7_counterexample :
    steveModel.base_parts[2]?.map BoxPart.name = some "rightArm" ∧
    alexModel.base_parts[2]?.map BoxPart.name = some "rightArm" ∧
    steveModel.base_parts[2]?.map BoxPart.origin = some ⟨-8, 12, -2⟩ ∧
    alexModel.base_parts[2]?.map BoxPart.origin = some ⟨-7, 12, -2⟩ := by
  refine ⟨?_, ?_, ?_, ?_⟩ <;>
    norm_num [steveModel, alexModel, mkBoxPart, V3.mk.injEq]

/-- C7 as amended: the two variants have identical part names and UV
origins, in the same order, for every base and overlay part; origins,
sizes and pivots are also identical except on the four arm/sleeve parts,
where the arm is 4 units wide (5 inflated) in the classic variant versus
3 (4 inflated) in the slim one, the arm pivot's y is 22 versus 21.5
(shifted by 0.5), and the *right* arm/sleeve x-origin is -8 versus -7
(-8.5 versus -7.5 inflated) — left arm/sleeve origins coincide.  The
explicit per-part value lists below exhibit exactly these differences. -/
theorem C7_amended :
    steveModel.base_parts.map BoxPart.name =
      alexModel.base_parts.map BoxPart.name ∧
    steveModel.overlay_parts.map BoxPart.name =
      alexModel.overlay_parts.map BoxPart.name ∧
    steveModel.base_parts.map BoxPart.uv_origin =
      alexModel.base_parts.map BoxPart.uv_origin ∧
    steveModel.overlay_parts.map BoxPart.uv_origin =
      alexModel.overlay_parts.map BoxPart.uv_origin ∧
    steveModel.base_parts.map BoxPart.origin =
      [⟨-4, 24, -4⟩, ⟨-4, 12, -2⟩, ⟨-8, 12, -2⟩, ⟨4, 12, -2⟩,
       ⟨-3.9, 0, -2⟩, ⟨-0.1, 0, -2⟩] ∧
    alexModel.base_parts.map BoxPart.origin =
      [⟨-4, 24, -4⟩, ⟨-4, 12, -2⟩, ⟨-7, 12, -2⟩, ⟨4, 12, -2⟩,
       ⟨-3.9, 0, -2⟩, ⟨-0.1, 0, -2⟩] ∧
    steveModel.overlay_parts.map BoxPart.origin =
      [⟨-4.5, 23.5, -4.5⟩, ⟨-4.5, 11.5, -2.5⟩, ⟨-8.5, 11.5, -2.5⟩,
       ⟨3.5, 11.5, -2.5⟩, ⟨-4.4, -0.5, -2.5⟩, ⟨-0.6, -0.5, -2.5⟩] ∧
    alexModel.overlay_parts.map BoxPart.origin =
      [⟨-4.5, 23.5, -4.5⟩, ⟨-4.5, 11.5, -2.5⟩, ⟨-7.5, 11.5, -2.5⟩,
       ⟨3.5, 11.5, -2.5⟩, ⟨-4.4, -0.5, -2.5⟩, ⟨-0.6, -0.5, -2.5⟩] ∧
    steveModel.base_parts.map BoxPart.size =
      [⟨8, 8, 8⟩, ⟨8, 12, 4⟩, ⟨4, 12, 4⟩, ⟨4, 12, 4⟩, ⟨4, 12, 4⟩,
       ⟨4, 12, 4⟩] ∧
    alexModel.base_parts.map BoxPart.size =
      [⟨8, 8, 8⟩, ⟨8, 12, 4⟩, ⟨3, 12, 4⟩, ⟨3, 12, 4⟩, ⟨4, 12, 4⟩,
       ⟨4, 12, 4⟩] ∧
    steveModel.overlay_parts.map BoxPart.size =
      [⟨9, 9, 9⟩, ⟨9, 13, 5⟩, ⟨5, 13, 5⟩, ⟨5, 13, 5⟩, ⟨5, 13, 5⟩,
       ⟨5, 13, 5⟩] ∧
    alexModel.overlay_parts.map BoxPart.size =
      [⟨9, 9, 9⟩, ⟨9, 13, 5⟩, ⟨4, 13, 5⟩, ⟨4, 13, 5⟩, ⟨5, 13, 5⟩,
       ⟨5, 13, 5⟩] ∧
    steveModel.base_parts.map BoxPart.pivot =
      [⟨0, 24, 0⟩, ⟨0, 24, 0⟩, ⟨-5, 22, 0⟩, ⟨5, 22, 0⟩, ⟨-1.9, 12, 0⟩,
       ⟨1.9, 12, 0⟩] ∧
    alexModel.base_parts.map BoxPart.pivot =
      [⟨0, 24, 0⟩, ⟨0, 24, 0⟩, ⟨-5, 21.5, 0⟩, ⟨5, 21.5, 0⟩,
       ⟨-1.9, 12, 0⟩, ⟨1.9, 12, 0⟩] ∧
    steveModel.overlay_parts.map BoxPart.pivot =
      [⟨0, 24, 0⟩, ⟨0, 24, 0⟩, ⟨-5, 22, 0⟩, ⟨5, 22, 0⟩, ⟨-1.9, 12, 0⟩,
       ⟨1.9, 12, 0⟩] ∧
    alexModel.overlay_parts.map BoxPart.pivot =
      [⟨0, 24, 0⟩, ⟨0, 24, 0⟩, ⟨-5, 21.5, 0⟩, ⟨5, 21.5, 0⟩,
       ⟨-1.9, 12, 0⟩, ⟨1.9, 12, 0⟩] := by
  norm_num [steveModel, alexModel, mkBoxPart, V3.mk.injEq, Prod.mk.injEq]

theorem applyPoseList_other (i : ℤ) (h1 : i ≠ 1) (h2 : i ≠ 2)
    (l : List BoxPart) : applyPoseList i l = l.map resetRotation := by
  simp [applyPoseList, h1, h2]

theorem applyPoseList_one (l : List BoxPart) :
    applyPoseList 1 l = (l.map resetRotation).map walkUpdate := by
  simp [applyPoseList]

theorem walkReset_ok (q : BoxPart) :
    walkRotationOk (walkUpdate (resetRotation q)) = true := by
  unfold resetRotation walkUpdate
  split_ifs with h1 h2 h3 h4 <;> simp_all [walkRotationOk]

/-- C4: `set_pose` first resets every rotation, so for any pose index
other than 1 or 2 every part of both layers ends with rotation exactly
`(0,0,0)` regardless of the previously applied pose; and after
`set_pose 1` every part's rotation follows the walking table —
rightArm/rightSleeve → (30,0,0), leftArm/leftSleeve → (-30,0,0),
rightLeg/rightPants → (-30,0,0), leftLeg/leftPants → (30,0,0), rules
applied in that order (first matching rule wins, as the `elif` cascade
does), all other parts zero. -/
theorem C4_set_pose (m : PlayerModel) (i : ℤ) (h1 : i ≠ 1) (h2 : i ≠ 2) :
    ((get_all_parts (set_pose i m)).all fun p =>
      decide (p.rotation = ⟨0, 0, 0⟩)) = true ∧
    ((get_all_parts (set_pose 1 m)).all walkRotationOk) = true := by
  constructor
  · simp only [get_all_parts, set_pose, applyPoseList_other i h1 h2,
      List.all_append, List.all_map]
    simp [resetRotation, Function.comp]
  · simp only [get_all_parts, set_pose, applyPoseList_one, List.all_append,
      List.all_map]
    simp [Function.comp, walkReset_ok]

/-- Witness for C4 at the classic model: pose index 5 (neither 1 nor 2)
zeroes every rotation, and pose 1 satisfies the walking table. -/
theorem C4_set_pose_witness :
    ((get_all_parts (set_pose 5 steveModel)).all fun p =>
      decide (p.rotation = ⟨0, 0, 0⟩)) = true ∧
    ((get_all_parts (set_pose 1 steveModel)).all walkRotationOk) = true :=
  C4_set_pose steveModel 5 (by norm_num) (by norm_num)

/-- C8: for every part and every rotation value (every interpretation of
cosine/sine), the quads returned by `get_transformed_quads` carry the
same face names and exactly the same UV lists as the untransformed quads
of `get_face_quads` — rotation only touches vertex positions; and when
the part's rotation is exactly `(0,0,0)` the quads are returned entirely
unchanged, vertices included. -/
theorem C8_rotation_preserves_uvs (cosd sind : ℚ → ℚ) (p : BoxPart) :
    (get_transformed_quads cosd sind p).map Quad.face =
      (get_face_quads p).map Quad.face ∧
    (get_transformed_quads cosd sind p).map
        (fun q => (q.uv0, q.uv1, q.uv2, q.uv3)) =
      (get_face_quads p).map (fun q => (q.uv0, q.uv1, q.uv2, q.uv3)) ∧
    (p.rotation = ⟨0, 0, 0⟩ →
      get_transformed_quads cosd sind p = get_face_quads p) := by
  simp only [get_transformed_quads]
  split_ifs with h
  · exact ⟨rfl, rfl, fun _ => rfl⟩
  · refine ⟨?_, ?_, fun hrot => absurd (by rw [hrot]; exact ⟨rfl, rfl, rfl⟩) h⟩
    · simp only [List.map_map]
      exact List.map_congr_left fun q hq => rfl
    · simp only [List.map_map]
      exact List.map_congr_left fun q hq => rfl

/-- Witness for C8: the zero-rotation case at a concrete box. -/
theorem C8_rotation_preserves_uvs_witness :
    (get_transformed_quads (fun _ => 0) (fun _ => 0) testCube).map Quad.face =
      (get_face_quads testCube).map Quad.face ∧
    get_transformed_quads (fun _ => 0) (fun _ => 0) testCube =
      get_face_quads testCube :=
  ⟨(C8_rotation_preserves_uvs (fun _ => 0) (fun _ => 0) testCube).1,
   (C8_rotation_preserves_uvs (fun _ => 0) (fun _ => 0) testCube).2.2 rfl⟩

/-- Counterexample to C9 as stated: at viewport width 0 (an input the
claim explicitly includes), `pick` does not return a value or the
sentinel — the Python body raises `ZeroDivisionError` at
`2.0 * mx / viewport_w`, modelled as `Except.error`. -/
theorem C9_counterexample :
    pick (fun _ => 0) (fun _ => 0) (fun _ => 1) 0 0 0 2 identityM identityM
      steveModel true = .error () := by
  simp [pick, unproject]

/-- C9 as amended: for every input whose viewport dimensions are both
nonzero, `unproject` and `pick` terminate and return a value or the
"no result" sentinel (`Except.ok`, never `Except.error`); the
intersection tests and mesh building are total functions by
construction.  With a zero viewport dimension the Python code instead
raises `ZeroDivisionError`. -/
theorem C9_no_fault (cosd sind sqd : ℚ → ℚ) (mx my vw vh : ℚ)
    (proj view : Mat4) (model : PlayerModel) (ov : Bool)
    (hvw : vw ≠ 0) (hvh : vh ≠ 0) :
    (∃ u, unproject sqd mx my vw vh proj view = .ok u) ∧
    (∃ r, pick cosd sind sqd mx my vw vh proj view model ov = .ok r) := by
  have hvp : ¬(vw = 0 ∨ vh = 0) := by tauto
  have hun : ∃ u, unproject sqd mx my vw vh proj view = .ok u := by
    unfold unproject
    rw [if_neg hvp]
    rcases mat4_inverse proj with _ | ip <;> rcases mat4_inverse view with _ | iv
    · exact ⟨none, rfl⟩
    · exact ⟨none, rfl⟩
    · exact ⟨none, rfl⟩
    · exact ⟨_, rfl⟩
  refine ⟨hun, ?_⟩
  obtain ⟨u, hu⟩ := hun
  unfold pick
  rw [hu]
  rcases u with _ | ⟨origin, direction⟩
  · exact ⟨none, rfl⟩
  · rcases hb : pickBestUV cosd sind origin direction
        (if ov then get_all_parts model else model.base_parts) with _ | ⟨tu, tv⟩
    · simp only [hb]
      exact ⟨none, rfl⟩
    · simp only [hb]
      exact ⟨_, rfl⟩

/-- Witness for C9: a concrete in-range call (viewport 2×2, identity
camera, one-box model) returns `Except.ok`. -/
theorem C9_no_fault_witness :
    (∃ u, unproject (fun _ => 2) 1 1 2 2 identityM identityM = .ok u) ∧
    (∃ r, pick (fun _ => 0) (fun _ => 0) (fun _ => 2) 1 1 2 2 identityM
      identityM testModel true = .ok r) :=
  C9_no_fault (fun _ => 0) (fun _ => 0) (fun _ => 2) 1 1 2 2 identityM
    identityM testModel true (by norm_num) (by norm_num)

/-- C1: whenever `pick` returns a texel, the texel is obtained from the
winning interpolated UV `(tu, tv)` of the quad loop as
`px = floor(tu * 64)`, `py = floor(tv * 64)` (the atlas is 64×64),
each clamped into `[0, 63]`; hence `0 ≤ px ≤ 63` and `0 ≤ py ≤ 63`.
The code truncates with Python's `int()`, which agrees with
floor-then-clamp after clamping (for a negative product both clamp to
0). -/
theorem C1_pick_texel (cosd sind sqd : ℚ → ℚ) (mx my vw vh : ℚ)
    (proj view : Mat4) (model : PlayerModel) (ov : Bool) (px py : ℤ)
    (h : pick cosd sind sqd mx my vw vh proj view model ov =
      .ok (some (px, py))) :
    ∃ tu tv origin direction,
      unproject sqd mx my vw vh proj view = .ok (some (origin, direction)) ∧
      pickBestUV cosd sind origin direction
        (if ov then get_all_parts model else model.base_parts) =
        some (tu, tv) ∧
      px = clampTexel ⌊tu * TEXW⌋ ∧ py = clampTexel ⌊tv * TEXH⌋ ∧
      0 ≤ px ∧ px ≤ 63 ∧ 0 ≤ py ∧ py ≤ 63 := by
  unfold pick at h
  rcases hu : unproject sqd mx my vw vh proj view with e | o
  · rw [hu] at h
    simp at h
  · rw [hu] at h
    rcases o with _ | ⟨origin, direction⟩
    · simp at h
    · simp only at h
      rcases hb : pickBestUV cosd sind origin direction
          (if ov then get_all_parts model else model.base_parts)
        with _ | ⟨tu, tv⟩
      · rw [hb] at h
        simp at h
      · rw [hb] at h
        simp only [Except.ok.injEq, Option.some.injEq, Prod.mk.injEq] at h
        obtain ⟨h1, h2⟩ := h
        refine ⟨tu, tv, origin, direction, rfl, hb, ?_, ?_, ?_, ?_, ?_, ?_⟩
        · rw [← h1, clampTexel_trunc_floor]
        · rw [← h2, clampTexel_trunc_floor]
        · rw [← h1]; exact (clampTexel_range _).1
        · rw [← h1]; exact (clampTexel_range _).2
        · rw [← h2]; exact (clampTexel_range _).1
        · rw [← h2]; exact (clampTexel_range _).2

theorem rti_eval (o d v0 v1 v2 : V3) (uv0 uv1 uv2 : V2) (a u v t : ℚ)
    (ha : dot3 (sub3 v1 v0) (cross3 d (sub3 v2 v0)) = a)
    (hna : ¬ |a| < triEps)
    (hu : 1 / a * dot3 (sub3 o v0) (cross3 d (sub3 v2 v0)) = u)
    (hu0 : ¬(u < 0 ∨ u > 1))
    (hv : 1 / a * dot3 d (cross3 (sub3 o v0) (sub3 v1 v0)) = v)
    (hv0 : ¬(v < 0 ∨ u + v > 1))
    (ht : 1 / a * dot3 (sub3 v2 v0) (cross3 (sub3 o v0) (sub3 v1 v0)) = t)
    (hteps : ¬ t < triEps) :
    ray_triangle_intersect o d v0 v1 v2 uv0 uv1 uv2 =
      some (t, (1 - u - v) * uv0.1 + u * uv1.1 + v * uv2.1,
        (1 - u - v) * uv0.2 + u * uv1.2 + v * uv2.2) := by
  simp only [ray_triangle_intersect]
  rw [ha, if_neg hna, hu, if_neg hu0, hv, if_neg hv0, ht, if_neg hteps]

theorem rti_parallel (o d v0 v1 v2 : V3) (uv0 uv1 uv2 : V2) (a : ℚ)
    (ha : dot3 (sub3 v1 v0) (cross3 d (sub3 v2 v0)) = a)
    (hpar : |a| < triEps) :
    ray_triangle_intersect o d v0 v1 v2 uv0 uv1 uv2 = none := by
  simp only [ray_triangle_intersect]
  rw [ha, if_pos hpar]

theorem rqi_first (o d : V3) (f : String) (w0 w1 w2 w3 : V3)
    (s0 s1 s2 s3 : V2) (r : ℚ × ℚ × ℚ)
    (h : ray_triangle_intersect o d w0 w1 w2 s0 s1 s2 = some r) :
    ray_quad_intersect o d ⟨f, w0, w1, w2, w3, s0, s1, s2, s3⟩ = some r := by
  show (match ray_triangle_intersect o d w0 w1 w2 s0 s1 s2 with
    | some r => some r
    | none => ray_triangle_intersect o d w0 w2 w3 s0 s2 s3) = some r
  rw [h]

theorem rqi_none (o d : V3) (f : String) (w0 w1 w2 w3 : V3)
    (s0 s1 s2 s3 : V2)
    (h1 : ray_triangle_intersect o d w0 w1 w2 s0 s1 s2 = none)
    (h2 : ray_triangle_intersect o d w0 w2 w3 s0 s2 s3 = none) :
    ray_quad_intersect o d ⟨f, w0, w1, w2, w3, s0, s1, s2, s3⟩ = none := by
  show (match ray_triangle_intersect o d w0 w1 w2 s0 s1 s2 with
    | some r => some r
    | none => ray_triangle_intersect o d w0 w2 w3 s0 s2 s3) = none
  rw [h1]
  exact h2

theorem test_quads :
    get_transformed_quads (fun _ => 0) (fun _ => 0)
      (mkBoxPart "test" ⟨-4, -4, 0⟩ ⟨8, 8, 8⟩ (0, 0)) =
    [⟨"front", ⟨-4, -4, 0⟩, ⟨4, -4, 0⟩, ⟨4, 4, 0⟩, ⟨-4, 4, 0⟩,
      (1/4, 1/4), (1/8, 1/4), (1/8, 1/8), (1/4, 1/8)⟩,
     ⟨"back", ⟨4, -4, 8⟩, ⟨-4, -4, 8⟩, ⟨-4, 4, 8⟩, ⟨4, 4, 8⟩,
      (1/2, 1/4), (3/8, 1/4), (3/8, 1/8), (1/2, 1/8)⟩,
     ⟨"right", ⟨-4, -4, 8⟩, ⟨-4, -4, 0⟩, ⟨-4, 4, 0⟩, ⟨-4, 4, 8⟩,
      (1/8, 1/4), (0, 1/4), (0, 1/8), (1/8, 1/8)⟩,
     ⟨"left", ⟨4, -4, 0⟩, ⟨4, -4, 8⟩, ⟨4, 4, 8⟩, ⟨4, 4, 0⟩,
      (3/8, 1/4), (1/4, 1/4), (1/4, 1/8), (3/8, 1/8)⟩,
     ⟨"top", ⟨-4, 4, 0⟩, ⟨4, 4, 0⟩, ⟨4, 4, 8⟩, ⟨-4, 4, 8⟩,
      (1/8, 0), (1/4, 0), (1/4, 1/8), (1/8, 1/8)⟩,
     ⟨"bottom", ⟨-4, -4, 8⟩, ⟨4, -4, 8⟩, ⟨4, -4, 0⟩, ⟨-4, -4, 0⟩,
      (1/4, 0), (3/8, 0), (3/8, 1/8), (1/4, 1/8)⟩] := by
  norm_num [get_transformed_quads, get_face_quads, mkBoxPart, box_uvs,
    normRect, TEXW, TEXH, Quad.mk.injEq, V3.mk.injEq, Prod.mk.injEq]

theorem hit_front :
    ray_quad_intersect ⟨0, 0, -1⟩ ⟨0, 0, 1⟩
      ⟨"front", ⟨-4, -4, 0⟩, ⟨4, -4, 0⟩, ⟨4, 4, 0⟩, ⟨-4, 4, 0⟩,
       (1/4, 1/4), (1/8, 1/4), (1/8, 1/8), (1/4, 1/8)⟩ =
      some (1, 3/16, 3/16) := by
  have h := rti_eval ⟨0, 0, -1⟩ ⟨0, 0, 1⟩ ⟨-4, -4, 0⟩ ⟨4, -4, 0⟩ ⟨4, 4, 0⟩
    (1/4, 1/4) (1/8, 1/4) (1/8, 1/8) (-64) 0 (1/2) 1
    (by norm_num [dot3, cross3, sub3]) (by norm_num [triEps])
    (by norm_num [dot3, cross3, sub3]) (by norm_num)
    (by norm_num [dot3, cross3, sub3]) (by norm_num)
    (by norm_num [dot3, cross3, sub3]) (by norm_num [triEps])
  rw [rqi_first _ _ _ _ _ _ _ _ _ _ _ _ h]
  norm_num

theorem hit_back :
    ray_quad_intersect ⟨0, 0, -1⟩ ⟨0, 0, 1⟩
      ⟨"back", ⟨4, -4, 8⟩, ⟨-4, -4, 8⟩, ⟨-4, 4, 8⟩, ⟨4, 4, 8⟩,
       (1/2, 1/4), (3/8, 1/4), (3/8, 1/8), (1/2, 1/8)⟩ =
      some (9, 7/16, 3/16) := by
  have h := rti_eval ⟨0, 0, -1⟩ ⟨0, 0, 1⟩ ⟨4, -4, 8⟩ ⟨-4, -4, 8⟩ ⟨-4, 4, 8⟩
    (1/2, 1/4) (3/8, 1/4) (3/8, 1/8) 64 0 (1/2) 9
    (by norm_num [dot3, cross3, sub3]) (by norm_num [triEps])
    (by norm_num [dot3, cross3, sub3]) (by norm_num)
    (by norm_num [dot3, cross3, sub3]) (by norm_num)
    (by norm_num [dot3, cross3, sub3]) (by norm_num [triEps])
  rw [rqi_first _ _ _ _ _ _ _ _ _ _ _ _ h]
  norm_num

theorem miss_right :
    ray_quad_intersect ⟨0, 0, -1⟩ ⟨0, 0, 1⟩
      ⟨"right", ⟨-4, -4, 8⟩, ⟨-4, -4, 0⟩, ⟨-4, 4, 0⟩, ⟨-4, 4, 8⟩,
       (1/8, 1/4), (0, 1/4), (0, 1/8), (1/8, 1/8)⟩ = none :=
  rqi_none _ _ _ _ _ _ _ _ _ _ _
    (rti_parallel _ _ _ _ _ _ _ _ 0 (by norm_num [dot3, cross3, sub3])
      (by norm_num [triEps]))
    (rti_parallel _ _ _ _ _ _ _ _ 0 (by norm_num [dot3, cross3, sub3])
      (by norm_num [triEps]))

theorem miss_left :
    ray_quad_intersect ⟨0, 0, -1⟩ ⟨0, 0, 1⟩
      ⟨"left", ⟨4, -4, 0⟩, ⟨4, -4, 8⟩, ⟨4, 4, 8⟩, ⟨4, 4, 0⟩,
       (3/8, 1/4), (1/4, 1/4), (1/4, 1/8), (3/8, 1/8)⟩ = none :=
  rqi_none _ _ _ _ _ _ _ _ _ _ _
    (rti_parallel _ _ _ _ _ _ _ _ 0 (by norm_num [dot3, cross3, sub3])
      (by norm_num [triEps]))
    (rti_parallel _ _ _ _ _ _ _ _ 0 (by norm_num [dot3, cross3, sub3])
      (by norm_num [triEps]))

theorem miss_top :
    ray_quad_intersect ⟨0, 0, -1⟩ ⟨0, 0, 1⟩
      ⟨"top", ⟨-4, 4, 0⟩, ⟨4, 4, 0⟩, ⟨4, 4, 8⟩, ⟨-4, 4, 8⟩,
       (1/8, 0), (1/4, 0), (1/4, 1/8), (1/8, 1/8)⟩ = none :=
  rqi_none _ _ _ _ _ _ _ _ _ _ _
    (rti_parallel _ _ _ _ _ _ _ _ 0 (by norm_num [dot3, cross3, sub3])
      (by norm_num [triEps]))
    (rti_parallel _ _ _ _ _ _ _ _ 0 (by norm_num [dot3, cross3, sub3])
      (by norm_num [triEps]))

theorem miss_bottom :
    ray_quad_intersect ⟨0, 0, -1⟩ ⟨0, 0, 1⟩
      ⟨"bottom", ⟨-4, -4, 8⟩, ⟨4, -4, 8⟩, ⟨4, -4, 0⟩, ⟨-4, -4, 0⟩,
       (1/4, 0), (3/8, 0), (3/8, 1/8), (1/4, 1/8)⟩ = none :=
  rqi_none _ _ _ _ _ _ _ _ _ _ _
    (rti_parallel _ _ _ _ _ _ _ _ 0 (by norm_num [dot3, cross3, sub3])
      (by norm_num [triEps]))
    (rti_parallel _ _ _ _ _ _ _ _ 0 (by norm_num [dot3, cross3, sub3])
      (by norm_num [triEps]))

theorem bestuv_test :
    pickBestUV (fun _ => 0) (fun _ => 0) ⟨0, 0, -1⟩ ⟨0, 0, 1⟩
      (get_all_parts testModel) = some (3/16, 3/16) := by
  simp only [pickBestUV, get_all_parts, testModel, List.append_nil,
    List.foldl_cons, List.foldl_nil, test_quads, hit_front, hit_back,
    miss_right, miss_left, miss_top, miss_bottom]
  norm_num [updateBest]

theorem unproj_test :
    unproject (fun _ => 2) 1 1 2 2 identityM identityM =
      .ok (some (⟨0, 0, -1⟩, ⟨0, 0, 1⟩)) := by
  unfold unproject
  rw [if_neg (by norm_num), mat4_inverse_identity]
  norm_num [unprojectAfterInv, ndcX, ndcY, nearEye, farEye, divideW,
    nearWorld, farWorld, unprojDelta, unprojDirSq, mat4_mul_vec4, identityM,
    singEps, V3.mk.injEq, V4.mk.injEq, Prod.mk.injEq]

theorem pick_eval (cosd sind sqd : ℚ → ℚ) (mx my vw vh : ℚ)
    (proj view : Mat4) (model : PlayerModel) (ov : Bool) (o d : V3)
    (tu tv : ℚ)
    (hu : unproject sqd mx my vw vh proj view = .ok (some (o, d)))
    (hb : pickBestUV cosd sind o d
      (if ov then get_all_parts model else model.base_parts) =
        some (tu, tv)) :
    pick cosd sind sqd mx my vw vh proj view model ov =
      .ok (some (clampTexel (truncQ (tu * TEXW)),
        clampTexel (truncQ (tv * TEXH)))) := by
  show (match unproject sqd mx my vw vh proj view with
    | Except.error e => Except.error e
    | Except.ok none => Except.ok none
    | Except.ok (some (origin, direction)) =>
        let parts := if ov then get_all_parts model else model.base_parts
        match pickBestUV cosd sind origin direction parts with
        | none => Except.ok none
        | some (tu, tv) =>
            Except.ok (some (clampTexel (truncQ (tu * TEXW)),
              clampTexel (truncQ (tv * TEXH))))) =
    Except.ok (some (clampTexel (truncQ (tu * TEXW)),
      clampTexel (truncQ (tv * TEXH))))
  rw [hu]
  show (match pickBestUV cosd sind o d
      (if ov then get_all_parts model else model.base_parts) with
    | none => Except.ok none
    | some (tu, tv) =>
        Except.ok (some (clampTexel (truncQ (tu * TEXW)),
          clampTexel (truncQ (tv * TEXH))))) = _
  rw [hb]

theorem pick_test :
    pick (fun _ => 0) (fun _ => 0) (fun _ => 2) 1 1 2 2 identityM identityM
      testModel true = .ok (some (12, 12)) := by
  have h := pick_eval (fun _ => 0) (fun _ => 0) (fun _ => 2) 1 1 2 2
    identityM identityM testModel true ⟨0, 0, -1⟩ ⟨0, 0, 1⟩ (3/16) (3/16)
    unproj_test bestuv_test
  rw [h, clampTexel_trunc_floor, clampTexel_trunc_floor]
  norm_num [TEXW, TEXH, clampTexel]

/-- Witness for C1: with an identity camera on a 2×2 viewport and a
single box whose front face spans x,y ∈ [-4,4] at z = 0, clicking the
viewport center returns texel (12, 12), which the theorem relates to the
winning interpolated UV (3/16, 3/16). -/
theorem C1_pick_texel_witness :
    ∃ tu tv origin direction,
      unproject (fun _ => 2) 1 1 2 2 identityM identityM =
        .ok (some (origin, direction)) ∧
      pickBestUV (fun _ => 0) (fun _ => 0) origin direction
        (if true then get_all_parts testModel else testModel.base_parts) =
        some (tu, tv) ∧
      (12 : ℤ) = clampTexel ⌊tu * TEXW⌋ ∧
      (12 : ℤ) = clampTexel ⌊tv * TEXH⌋ ∧
      (0 : ℤ) ≤ 12 ∧ (12 : ℤ) ≤ 63 ∧ (0 : ℤ) ≤ 12 ∧ (12 : ℤ) ≤ 63 :=
  C1_pick_texel (fun _ => 0) (fun _ => 0) (fun _ => 2) 1 1 2 2 identityM
    identityM testModel true 12 12 pick_test

/-- C5 as amended: provided both viewport dimensions are nonzero (with a
zero dimension the Python code raises instead, see the counterexample),
and with `sqd` interpreting `math.sqrt` (nonnegative, squaring back to
its argument at the point of use), `_unproject` returns the "no result"
sentinel if and only if inversion of `proj` or of `view` fails, or the
perspective-divide guard `|w| < 1e-12` trips for the transformed near or
far clip point, or the near-to-far world direction has length `< 1e-12`
(stated squared: `dirSq < (1e-12)^2`); in every other case it returns
the near world point as ray origin together with the direction
`(far - near)` divided by its length — a unit vector. -/
theorem C5_unproject_cases (sqd : ℚ → ℚ) (mx my vw vh : ℚ)
    (proj view : Mat4) (hvw : vw ≠ 0) (hvh : vh ≠ 0)
    (hsq : ∀ ip iv : Mat4, mat4_inverse proj = some ip →
      mat4_inverse view = some iv →
      0 ≤ sqd (unprojDirSq ip iv (ndcX mx vw) (ndcY my vh)) ∧
      sqd (unprojDirSq ip iv (ndcX mx vw) (ndcY my vh)) ^ 2 =
        unprojDirSq ip iv (ndcX mx vw) (ndcY my vh)) :
    (unproject sqd mx my vw vh proj view = .ok none ↔
      mat4_inverse proj = none ∨ mat4_inverse view = none ∨
      ∃ ip iv : Mat4, mat4_inverse proj = some ip ∧
        mat4_inverse view = some iv ∧
        (|(nearEye ip (ndcX mx vw) (ndcY my vh)).w| < singEps ∨
         |(farEye ip (ndcX mx vw) (ndcY my vh)).w| < singEps ∨
         unprojDirSq ip iv (ndcX mx vw) (ndcY my vh) < singEps ^ 2)) ∧
    (∀ o d : V3, unproject sqd mx my vw vh proj view = .ok (some (o, d)) →
      ∃ ip iv : Mat4, mat4_inverse proj = some ip ∧
        mat4_inverse view = some iv ∧
        o = ⟨(nearWorld ip iv (ndcX mx vw) (ndcY my vh)).x,
             (nearWorld ip iv (ndcX mx vw) (ndcY my vh)).y,
             (nearWorld ip iv (ndcX mx vw) (ndcY my vh)).z⟩ ∧
        d = ⟨(unprojDelta ip iv (ndcX mx vw) (ndcY my vh)).x /
               sqd (unprojDirSq ip iv (ndcX mx vw) (ndcY my vh)),
             (unprojDelta ip iv (ndcX mx vw) (ndcY my vh)).y /
               sqd (unprojDirSq ip iv (ndcX mx vw) (ndcY my vh)),
             (unprojDelta ip iv (ndcX mx vw) (ndcY my vh)).z /
               sqd (unprojDirSq ip iv (ndcX mx vw) (ndcY my vh))⟩ ∧
        d.x ^ 2 + d.y ^ 2 + d.z ^ 2 = 1) := by
  have hvp : ¬(vw = 0 ∨ vh = 0) := by tauto
  have hseps : (0 : ℚ) < singEps := by norm_num [singEps]
  unfold unproject
  rw [if_neg hvp]
  rcases hp : mat4_inverse proj with _ | ip <;>
    rcases hv : mat4_inverse view with _ | iv
  · exact ⟨⟨fun _ => Or.inl rfl, fun _ => rfl⟩, fun o d hod => by simp at hod⟩
  · exact ⟨⟨fun _ => Or.inl rfl, fun _ => rfl⟩, fun o d hod => by simp at hod⟩
  · exact ⟨⟨fun _ => Or.inr (Or.inl rfl), fun _ => rfl⟩,
      fun o d hod => by simp at hod⟩
  · obtain ⟨hsnn, hssq⟩ := hsq ip iv hp hv
    dsimp only
    unfold unprojectAfterInv
    by_cases hg : |(nearEye ip (ndcX mx vw) (ndcY my vh)).w| < singEps ∨
        |(farEye ip (ndcX mx vw) (ndcY my vh)).w| < singEps
    · rw [if_pos hg]
      refine ⟨⟨fun _ => Or.inr (Or.inr ⟨ip, iv, rfl, rfl, ?_⟩), fun _ => rfl⟩,
        fun o d hod => by simp at hod⟩
      rcases hg with hg | hg
      · exact Or.inl hg
      · exact Or.inr (Or.inl hg)
    · rw [if_neg hg]
      rw [not_or] at hg
      by_cases hdl : sqd (unprojDirSq ip iv (ndcX mx vw) (ndcY my vh)) <
          singEps
      · rw [if_pos hdl]
        have hlt : unprojDirSq ip iv (ndcX mx vw) (ndcY my vh) <
            singEps ^ 2 := by
          nlinarith [hssq, hdl, hsnn]
        exact ⟨⟨fun _ => Or.inr (Or.inr ⟨ip, iv, rfl, rfl,
            Or.inr (Or.inr hlt)⟩), fun _ => rfl⟩,
          fun o d hod => by simp at hod⟩
      · rw [if_neg hdl]
        rw [not_lt] at hdl
        have hdlpos : 0 < sqd (unprojDirSq ip iv (ndcX mx vw) (ndcY my vh)) :=
          lt_of_lt_of_le hseps hdl
        constructor
        · constructor
          · intro habs
            simp at habs
          · rintro (h | h | ⟨ip', iv', hip', hiv', hc⟩)
            · exact absurd h (by simp)
            · exact absurd h (by simp)
            · obtain rfl : ip' = ip := by
                injection hip' with h'
                exact h'.symm
              obtain rfl : iv' = iv := by
                injection hiv' with h'
                exact h'.symm
              rcases hc with hc | hc | hc
              · exact absurd hc hg.1
              · exact absurd hc hg.2
              · nlinarith [hssq, hdl, hc, hseps]
        · intro o d hod
          simp only [Except.ok.injEq, Option.some.injEq, Prod.mk.injEq] at hod
          obtain ⟨ho, hd⟩ := hod
          refine ⟨ip, iv, rfl, rfl, ho.symm, hd.symm, ?_⟩
          rw [← hd]
          have hdlne : sqd (unprojDirSq ip iv (ndcX mx vw) (ndcY my vh)) ≠ 0 :=
            ne_of_gt hdlpos
          have hs' : sqd (unprojDirSq ip iv (ndcX mx vw) (ndcY my vh)) ^ 2 =
              (unprojDelta ip iv (ndcX mx vw) (ndcY my vh)).x ^ 2 +
              (unprojDelta ip iv (ndcX mx vw) (ndcY my vh)).y ^ 2 +
              (unprojDelta ip iv (ndcX mx vw) (ndcY my vh)).z ^ 2 := by
            rw [hssq, unprojDirSq]
          field_simp
          linarith [hs']

/-- Counterexample to C5 as stated: with both inversions succeeding and
a zero viewport width, `_unproject` neither returns the sentinel nor a
ray — the division `2.0 * mx / viewport_w` raises `ZeroDivisionError`
(the `Except.error` case), while the claim says every non-sentinel call
returns the near world point and a unit direction. -/
theorem C5_counterexample :
    mat4_inverse identityM = some identityM ∧
    unproject (fun _ => 1) 0 0 0 2 identityM identityM = .error () := by
  refine ⟨mat4_inverse_identity, ?_⟩
  simp [unproject]

/-- Witness for C5: the success branch applied to the identity camera on
a 2×2 viewport at the viewport center, where the square root of the
squared direction length 4 is interpreted as 2. -/
theorem C5_unproject_cases_witness :
    ∃ ip iv : Mat4, mat4_inverse identityM = some ip ∧
      mat4_inverse identityM = some iv ∧
      (⟨0, 0, -1⟩ : V3) = ⟨(nearWorld ip iv (ndcX 1 2) (ndcY 1 2)).x,
        (nearWorld ip iv (ndcX 1 2) (ndcY 1 2)).y,
        (nearWorld ip iv (ndcX 1 2) (ndcY 1 2)).z⟩ ∧
      (⟨0, 0, 1⟩ : V3) = ⟨(unprojDelta ip iv (ndcX 1 2) (ndcY 1 2)).x / 2,
        (unprojDelta ip iv (ndcX 1 2) (ndcY 1 2)).y / 2,
        (unprojDelta ip iv (ndcX 1 2) (ndcY 1 2)).z / 2⟩ ∧
      (⟨0, 0, 1⟩ : V3).x ^ 2 + (⟨0, 0, 1⟩ : V3).y ^ 2 +
        (⟨0, 0, 1⟩ : V3).z ^ 2 = 1 :=
  (C5_unproject_cases (fun _ => 2) 1 1 2 2 identityM identityM
    (by norm_num) (by norm_num) (by
      intro ip iv hip hiv
      rw [mat4_inverse_identity] at hip hiv
      obtain rfl : ip = identityM := by
        injection hip with h
        exact h.symm
      obtain rfl : iv = identityM := by
        injection hiv with h
        exact h.symm
      constructor
      · norm_num
      · norm_num [unprojDirSq, unprojDelta, nearWorld, farWorld, nearEye,
          farEye, divideW, mat4_mul_vec4, identityM, ndcX, ndcY])).2
    ⟨0, 0, -1⟩ ⟨0, 0, 1⟩ unproj_test
